import Mathlib

/-!
Shallow embedding of the retry-guarded remote-call facades and the
progress-tracking / email / scheduling helpers of the Onboarding AI
Assistant repository, together with proofs of the specification claims.

Sources embedded:
* `src/utils/aws_helper.py` — `AWSHelper.invoke_bedrock_agent`
* `src/agents/orchestrator.py` — `OrchestratorAgent.ask_agent`
* `src/pages/chat_agent.py` / `src/voice_agent.py` — `ask_agent`
* `src/features/progress_tracker.py` — `get_progress`, `_get_mock_progress`,
  `update_progress`, `complete_module`, `_calculate_streak`
* `src/features/email_automation.py` — `EmailAutomation._send_email`
* `src/infrastructure/lamda_functions/interview_scheduler/lambda_function.py`
  — `find_optimal_time_slot`

Modelling conventions:
* One Bedrock `invoke_agent` attempt is abstracted by its observable
  outcome (`AttemptOutcome`): a successful completion stream, an
  `InternalServerException`, or any other exception carrying `str(e)`.
* Chunk payloads are modelled as the already-UTF-8-decoded text of the
  chunk's bytes; a non-chunk stream event carries no text.
* A Python function that may let an exception escape is embedded in
  `Except String`; `Except.error e` models an uncaught exception.
* A Python function body that can fall through the `for` loop and
  return implicitly returns `none` (Python `None`).
* `time.sleep` calls and remote invocations are counted explicitly: the
  facades return `(result, invocations, sleeps)`.
* Calendar dates (`str(datetime.now().date())`) are modelled as absolute
  day numbers (`Int`), so `(today - last).days` is plain subtraction.
-/

/-- One event of the Bedrock completion stream: either a chunk carrying
the UTF-8-decoded text of its bytes, or any other event (which the
source ignores). -/
inductive StreamEvent where
  | chunk (text : String)
  | other
deriving DecidableEq, Repr

/-- Text carried by a stream event, `none` for non-chunk events. -/
def chunkText : StreamEvent → Option String
  | .chunk s => some s
  | .other => none

/-- Embedding of the accumulation loop
`for event in response['completion']: if 'chunk' in event:
response_text += event['chunk']['bytes'].decode('utf-8')`. -/
def collectResponseText (events : List StreamEvent) : String :=
  events.foldl (fun acc e => match e with | .chunk s => acc ++ s | .other => acc) ""

/-- Plain left-to-right concatenation of a list of strings, used as the
specification-side description of "concatenation in stream order". -/
def concatTexts : List String → String
  | [] => ""
  | s :: rest => s ++ concatTexts rest

/-- Observable outcome of one `invoke_agent` attempt: a successful
response stream, an `InternalServerException`, or any other exception
carrying `str(e)`. -/
inductive AttemptOutcome where
  | ok (events : List StreamEvent)
  | internalServerError
  | raise (e : String)
deriving DecidableEq, Repr

/-- Result dictionary of `AWSHelper.invoke_bedrock_agent` and
`OrchestratorAgent.ask_agent`.  `Option` fields model dictionary keys
that are absent in some branches of the source. -/
structure AgentCallResult where
  success : Bool
  response : String
  error : Option String
  session_id : Option String
deriving DecidableEq, Repr

/-- Desugaring of the retry loop `for attempt in range(retries)` shared
verbatim (up to two literal message strings) by
`AWSHelper.invoke_bedrock_agent` (src/utils/aws_helper.py lines 83-118)
and `OrchestratorAgent.ask_agent` (src/agents/orchestrator.py lines
33-68).  `attempt` is the current loop index and `left` the number of
iterations remaining (`left = retries - attempt` at every reachable
call).  `transientMsg` is the response returned when retries are
exhausted and `errPre` the prefix of the response built from `str(e)`
in the catch-all branch.  Returns the result (`Except.ok none` models
Python falling through the loop and returning `None`), the number of
`invoke_agent` calls, and the number of `time.sleep` calls. -/
def agentRetryGo (transientMsg errPre : String) (beh : Nat → AttemptOutcome)
    (sid : String) (retries : Nat) :
    (attempt left : Nat) → Except String (Option AgentCallResult) × Nat × Nat
  | _, 0 => (Except.ok none, 0, 0)
  | attempt, left + 1 =>
    match beh attempt with
    | .ok events =>
      (Except.ok (some { success := true, response := collectResponseText events,
                         error := none, session_id := some sid }), 1, 0)
    | .internalServerError =>
      if attempt < retries - 1 then
        let t := agentRetryGo transientMsg errPre beh sid retries (attempt + 1) left
        (t.1, t.2.1 + 1, t.2.2 + 1)
      else
        (Except.ok (some { success := false, response := transientMsg,
                           error := some "Service temporarily unavailable",
                           session_id := none }), 1, 0)
    | .raise e =>
      (Except.ok (some { success := false, response := errPre ++ e,
                         error := some e, session_id := none }), 1, 0)

/-- Embedding of `AWSHelper.invoke_bedrock_agent`
(src/utils/aws_helper.py lines 76-118).  `retries` is the value of
`config.API_RETRY_COUNT`; the fixed `config.API_RETRY_DELAY` wait is
recorded by the sleep counter. -/
def invoke_bedrock_agent (beh : Nat → AttemptOutcome) (sid : String) (retries : Nat) :
    Except String (Option AgentCallResult) × Nat × Nat :=
  agentRetryGo "Sorry, I am temporarily unavailable. Please try again."
    "Error: " beh sid retries 0 retries

/-- Embedding of `OrchestratorAgent.ask_agent`
(src/agents/orchestrator.py lines 26-68).  `retries` is the resolved
value of `retries or config.API_RETRY_COUNT`. -/
def orchestrator_ask_agent (beh : Nat → AttemptOutcome) (sid : String) (retries : Nat) :
    Except String (Option AgentCallResult) × Nat × Nat :=
  agentRetryGo "Sorry, I am temporarily unavailable. Please try again later."
    "An error occurred: " beh sid retries 0 retries

/-- Desugaring of the retry loop of `ask_agent` in
src/pages/chat_agent.py lines 20-46 and src/voice_agent.py lines
117-139 (the two copies are behaviourally identical, including the
fallback message).  Only `InternalServerException` is caught; any other
exception propagates (`Except.error`).  On success the plain response
text is returned. -/
def chatAskGo (beh : Nat → AttemptOutcome) (retries : Nat) :
    (attempt left : Nat) → Except String (Option String) × Nat × Nat
  | _, 0 => (Except.ok none, 0, 0)
  | attempt, left + 1 =>
    match beh attempt with
    | .ok events => (Except.ok (some (collectResponseText events)), 1, 0)
    | .internalServerError =>
      if attempt < retries - 1 then
        let t := chatAskGo beh retries (attempt + 1) left
        (t.1, t.2.1 + 1, t.2.2 + 1)
      else
        (Except.ok
          (some "Sorry, the service is temporarily unavailable. Please try again later."),
         1, 0)
    | .raise e => (Except.error e, 1, 0)

/-- Embedding of `ask_agent` in src/pages/chat_agent.py lines 20-46. -/
def chat_ask_agent (beh : Nat → AttemptOutcome) (retries : Nat) :
    Except String (Option String) × Nat × Nat :=
  chatAskGo beh retries 0 retries

/-- Embedding of `ask_agent` in src/voice_agent.py lines 117-139 (same
body as the chat_agent.py copy). -/
def voice_ask_agent (beh : Nat → AttemptOutcome) (retries : Nat) :
    Except String (Option String) × Nat × Nat :=
  chatAskGo beh retries 0 retries

deriving instance DecidableEq for Except

example : invoke_bedrock_agent (fun _ => .internalServerError) "s" 3
    = (Except.ok (some { success := false,
                         response := "Sorry, I am temporarily unavailable. Please try again.",
                         error := some "Service temporarily unavailable",
                         session_id := none }), 3, 2) := by
  decide

example : chat_ask_agent (fun _ => .raise "boom") 3 = (Except.error "boom", 1, 0) := by
  decide

example : invoke_bedrock_agent
      (fun i => if i = 0 then .internalServerError else .ok [.chunk "Hel", .other, .chunk "lo"])
      "s" 3
    = (Except.ok (some { success := true, response := "Hello",
                         error := none, session_id := some "s" }), 2, 1) := by
  decide

/-- Onboarding-progress record stored in the `onboarding-progress`
DynamoDB table (src/features/progress_tracker.py).  `Option` fields are
keys present only in some records (`initialize_progress` writes them,
`_get_mock_progress` does not).  Dates are modelled as absolute day
numbers. -/
structure ProgressRecord where
  user_id : String
  role : Option String := none
  department : Option String := none
  start_date : Option Int := none
  overall_progress : Int
  completed_modules : List String
  in_progress_modules : List String
  upcoming_modules : List String
  assessments_completed : Nat
  vr_experiences_completed : Nat
  learning_streak_days : Nat
  last_activity_date : Int
  milestones_achieved : Option (List String) := none
  total_learning_time_minutes : Nat
deriving DecidableEq, Repr

/-- The DynamoDB table keyed by `user_id`, as an association list. -/
abbrev ProgressTable := List (String × ProgressRecord)

/-- Overwrite-by-key semantics of `table.put_item(Item=r)`. -/
def tablePut (t : ProgressTable) (uid : String) (r : ProgressRecord) : ProgressTable :=
  (uid, r) :: t.filter (fun p => p.1 ≠ uid)

/-- Embedding of `ProgressTracker._get_mock_progress`
(src/features/progress_tracker.py lines 117-132). -/
def mock_progress (uid : String) (today : Int) : ProgressRecord :=
  { user_id := uid,
    overall_progress := 45,
    completed_modules := ["Company Culture", "IT Systems Setup"],
    in_progress_modules := ["Role-Specific Training"],
    upcoming_modules := ["Team Collaboration", "Advanced Skills"],
    assessments_completed := 2,
    vr_experiences_completed := 1,
    learning_streak_days := 12,
    last_activity_date := today,
    total_learning_time_minutes := 180 }

/-- Embedding of `ProgressTracker.get_progress`
(src/features/progress_tracker.py lines 97-115).  The table handle is
`none` when tracking is disabled or construction failed
(`self.table is None`).  The second component counts `get_item` calls
to the underlying store. -/
def get_progress (table : Option ProgressTable) (uid : String) (today : Int) :
    ProgressRecord × Nat :=
  match table with
  | none => (mock_progress uid today, 0)
  | some t =>
    match t.lookup uid with
    | some item => (item, 1)
    | none => (mock_progress uid today, 1)

/-- Embedding of `ProgressTracker._calculate_streak`
(src/features/progress_tracker.py lines 134-150) on well-formed day
numbers: `(today - last).days` is `today - last`. -/
def calculate_streak (last_activity_date today : Int) : Nat :=
  let diff := today - last_activity_date
  if diff = 0 then 1
  else if diff = 1 then 1
  else 0

/-- The fields of the `update_data` dictionary that
`ProgressTracker.complete_module` passes to `update_progress`. -/
structure UpdateData where
  completed_modules : List String
  in_progress_modules : List String
  total_learning_time_minutes : Nat
  overall_progress : Int
deriving DecidableEq, Repr

/-- Result dictionaries returned by `ProgressTracker.update_progress`
and `ProgressTracker.complete_module`; `Option` fields model keys
absent in some branches. -/
structure OpResult where
  success : Bool
  message : Option String := none
  error : Option String := none
  progress : Option ProgressRecord := none
deriving DecidableEq, Repr

/-- Embedding of `ProgressTracker.update_progress`
(src/features/progress_tracker.py lines 55-95), specialised to the
`update_data` dictionaries built by `complete_module`.  Returns the
result, the table after the call, and the number of `put_item` calls. -/
def update_progress (table : Option ProgressTable) (uid : String)
    (u : UpdateData) (today : Int) : OpResult × Option ProgressTable × Nat :=
  match table with
  | none => ({ success := false, message := some "Progress tracking not available" }, none, 0)
  | some t =>
    match t.lookup uid with
    | none => ({ success := false, message := some "User progress not found" }, some t, 0)
    | some cur =>
      let updated : ProgressRecord :=
        { cur with
          completed_modules := u.completed_modules,
          in_progress_modules := u.in_progress_modules,
          total_learning_time_minutes := u.total_learning_time_minutes,
          overall_progress := u.overall_progress,
          last_activity_date := today }
      let updated : ProgressRecord :=
        { updated with
          learning_streak_days := calculate_streak updated.last_activity_date today }
      ({ success := true, progress := some updated }, some (tablePut t uid updated), 1)

/-- Embedding of `ProgressTracker.complete_module`
(src/features/progress_tracker.py lines 152-184).  The float expression
`int((len(completed) / total_modules) * 100)` is modelled as exact
truncated division.  Returns the result, the table after the call, and
the number of `put_item` calls. -/
def complete_module (table : Option ProgressTable) (uid module_name : String)
    (time_spent_minutes : Nat) (today : Int) : OpResult × Option ProgressTable × Nat :=
  let progress := (get_progress table uid today).1
  if module_name ∈ progress.completed_modules then
    ({ success := true, message := some "Module already completed" }, table, 0)
  else
    let completed := progress.completed_modules ++ [module_name]
    let in_progress := progress.in_progress_modules.erase module_name
    let total_time := progress.total_learning_time_minutes + time_spent_minutes
    let total_modules := completed.length + in_progress.length + progress.upcoming_modules.length
    let overall : Int :=
      if total_modules > 0 then ((completed.length * 100) / total_modules : Nat) else 0
    update_progress table uid
      { completed_modules := completed,
        in_progress_modules := in_progress,
        total_learning_time_minutes := total_time,
        overall_progress := overall } today

/-- Outcome of one `ses.send_email` call: a message id, or an exception
carrying `str(e)`. -/
inductive SesOutcome where
  | ok (messageId : String)
  | raise (e : String)
deriving DecidableEq, Repr

/-- Result dictionary of `EmailAutomation._send_email`; `Option` fields
model keys absent in some branches. -/
structure EmailResult where
  success : Bool
  message : Option String := none
  message_id : Option String := none
  error : Option String := none
deriving DecidableEq, Repr

/-- Embedding of `EmailAutomation._send_email`
(src/features/email_automation.py lines 182-215).  `enabled` is
`self.enabled` (`config.ENABLE_EMAIL_AUTOMATION`) and `sesAvailable`
is whether `self.ses` is non-`None`. -/
def send_email (enabled sesAvailable : Bool) (outcome : SesOutcome) : EmailResult :=
  if !enabled || !sesAvailable then
    { success := false, message := some "Email automation not enabled" }
  else
    match outcome with
    | .ok mid => { success := true, message_id := some mid }
    | .raise e => { success := false, error := some e }

/-- Result dictionary of `find_optimal_time_slot`: the chosen slot and
the (always empty) participant list. -/
structure OptimalSlotResult (α : Type) where
  slot : α
  participants : List String
deriving DecidableEq, Repr

/-- Embedding of `find_optimal_time_slot`
(src/infrastructure/lamda_functions/interview_scheduler/lambda_function.py
lines 350-374).  Time slots are kept abstract (`α`); the body consults
none of the identity, duration or participant arguments beyond logging. -/
def find_optimal_time_slot (α : Type) (employee_id employee_email employee_name
    meeting_type : String) (duration_minutes : Nat) (preferred_times : List α)
    (required_participants : List String) : Option (OptimalSlotResult α) :=
  match preferred_times with
  | [] => none
  | t :: _ => some { slot := t, participants := [] }

example : (get_progress none "u1" 10).1.overall_progress = 45 := by decide

example : complete_module (some [("u1", mock_progress "u1" 3)]) "u1" "Company Culture" 30 5
    = ({ success := true, message := some "Module already completed" },
       some [("u1", mock_progress "u1" 3)], 0) := by
  decide

/-- The fold of `collectResponseText` with an arbitrary accumulator is
the accumulator followed by the concatenation of the chunk texts. -/
theorem collectResponseText_go (events : List StreamEvent) :
    ∀ acc : String,
      events.foldl (fun acc e => match e with | .chunk s => acc ++ s | .other => acc) acc
        = acc ++ concatTexts (events.filterMap chunkText) := by
  induction events with
  | nil => intro acc; simp [concatTexts]
  | cons e rest ih =>
    intro acc
    cases e with
    | chunk s =>
      simp only [List.foldl_cons, List.filterMap_cons, chunkText, concatTexts, ih (acc ++ s)]
      rw [String.append_assoc]
    | other =>
      simp only [List.foldl_cons, List.filterMap_cons, chunkText, ih acc]

/-- `collectResponseText` concatenates, in stream order, exactly the
texts of the chunk events. -/
theorem collectResponseText_eq_concat (events : List StreamEvent) :
    collectResponseText events = concatTexts (events.filterMap chunkText) := by
  simpa [collectResponseText] using collectResponseText_go events ""

/-- When every attempt raises `InternalServerException`, the retry loop
of `invoke_bedrock_agent` / `OrchestratorAgent.ask_agent` performs one
`invoke_agent` call per remaining iteration, sleeps between consecutive
attempts, and ends in the generic-unavailability failure dictionary. -/
theorem agentRetryGo_allISE (tm ep : String) (beh : Nat → AttemptOutcome) (sid : String)
    (retries : Nat) (hbeh : ∀ i, beh i = AttemptOutcome.internalServerError) :
    ∀ left attempt, attempt + left = retries → 1 ≤ left →
      agentRetryGo tm ep beh sid retries attempt left =
        (Except.ok (some { success := false, response := tm,
                           error := some "Service temporarily unavailable",
                           session_id := none }), left, left - 1) := by
  intro left
  induction left with
  | zero => intro attempt _ h1; omega
  | succ l ih =>
    intro attempt hinv _
    simp only [agentRetryGo, hbeh attempt]
    by_cases hc : attempt < retries - 1
    · rw [if_pos hc]
      have hl1 : 1 ≤ l := by omega
      rw [ih (attempt + 1) (by omega) hl1]
      simp only [Prod.mk.injEq, and_true, true_and]
      omega
    · rw [if_neg hc]
      have hl0 : l = 0 := by omega
      subst hl0
      rfl

/-- Any run of the retry loop of `invoke_bedrock_agent` /
`OrchestratorAgent.ask_agent` that enters the loop body ends in
`Except.ok (some _)`: every exception of an attempt is handled. -/
theorem agentRetryGo_total (tm ep : String) (beh : Nat → AttemptOutcome) (sid : String)
    (retries : Nat) :
    ∀ left attempt, attempt + left = retries → 1 ≤ left →
      ∃ r rest, agentRetryGo tm ep beh sid retries attempt left =
        (Except.ok (some r), rest) := by
  intro left
  induction left with
  | zero => intro attempt _ h1; omega
  | succ l ih =>
    intro attempt hinv _
    simp only [agentRetryGo]
    cases hb : beh attempt with
    | ok events => exact ⟨_, _, rfl⟩
    | internalServerError =>
      by_cases hc : attempt < retries - 1
      · rw [if_pos hc]
        have hl1 : 1 ≤ l := by omega
        obtain ⟨r, rest, hr⟩ := ih (attempt + 1) (by omega) hl1
        rw [hr]
        exact ⟨r, _, rfl⟩
      · rw [if_neg hc]
        exact ⟨_, _, rfl⟩
    | raise e => exact ⟨_, _, rfl⟩

/-- When attempts `0, …, j-1` raise `InternalServerException` and
attempt `j` succeeds, the retry loop returns the success dictionary
after `j - attempt + 1` calls and `j - attempt` sleeps. -/
theorem agentRetryGo_success (tm ep : String) (beh : Nat → AttemptOutcome) (sid : String)
    (retries j : Nat) (events : List StreamEvent) (hj : j < retries)
    (hpre : ∀ i, i < j → beh i = AttemptOutcome.internalServerError)
    (hk : beh j = AttemptOutcome.ok events) :
    ∀ left attempt, attempt + left = retries → attempt ≤ j →
      agentRetryGo tm ep beh sid retries attempt left =
        (Except.ok (some { success := true, response := collectResponseText events,
                           error := none, session_id := some sid }),
         j - attempt + 1, j - attempt) := by
  intro left
  induction left with
  | zero => intro attempt hinv hle; omega
  | succ l ih =>
    intro attempt hinv hle
    by_cases heq : attempt = j
    · subst heq
      simp only [agentRetryGo, hk]
      simp
    · have hlt : attempt < j := by omega
      simp only [agentRetryGo, hpre attempt hlt]
      rw [if_pos (show attempt < retries - 1 by omega)]
      rw [ih (attempt + 1) (by omega) (by omega)]
      simp only [Prod.mk.injEq, true_and]
      omega

/-- C1 (counterexample): the claim quantifies over *any* exception of an
attempt, but `ask_agent` in chat_agent.py and voice_agent.py catch only
`InternalServerException`; when the first attempt raises any other
exception (here `"boom"`), the raw exception propagates across the
facade boundary instead of a result value. -/
theorem c1_chat_agent_propagates_counterexample :
    chat_ask_agent (fun _ => AttemptOutcome.raise "boom") 3 = (Except.error "boom", 1, 0)
    ∧ voice_ask_agent (fun _ => AttemptOutcome.raise "boom") 3 = (Except.error "boom", 1, 0) := by
  constructor <;> decide

/-- C1 (amended): for every question and every outcome of each attempt,
`AWSHelper.invoke_bedrock_agent` and `OrchestratorAgent.ask_agent`
(which both end in a catch-all `except Exception`) return a well-formed
result dictionary and never let an exception propagate; `ask_agent` in
chat_agent.py and voice_agent.py handle only `InternalServerException`,
so any other exception propagates to the caller. -/
theorem c1_agent_facade_totality (beh : Nat → AttemptOutcome) (sid : String)
    (retries : Nat) (hr : 1 ≤ retries) :
    (∃ r rest, invoke_bedrock_agent beh sid retries = (Except.ok (some r), rest))
    ∧ (∃ r rest, orchestrator_ask_agent beh sid retries = (Except.ok (some r), rest)) :=
  ⟨agentRetryGo_total _ _ beh sid retries retries 0 (by omega) hr,
   agentRetryGo_total _ _ beh sid retries retries 0 (by omega) hr⟩

/-- C1 (witness): instance of the totality theorem at a terminal-error
behaviour with three attempts. -/
theorem c1_agent_facade_totality_witness :
    1 ≤ 3
    ∧ ((∃ r rest, invoke_bedrock_agent (fun _ => AttemptOutcome.raise "x") "s" 3
          = (Except.ok (some r), rest))
       ∧ (∃ r rest, orchestrator_ask_agent (fun _ => AttemptOutcome.raise "x") "s" 3
          = (Except.ok (some r), rest))) :=
  ⟨by decide, c1_agent_facade_totality (fun _ => AttemptOutcome.raise "x") "s" 3 (by decide)⟩

/-- C2: when every attempt fails with `InternalServerException`, the
retry-wrapped call performs exactly `retries` invocations, sleeps the
fixed delay exactly `retries - 1` times (once between each consecutive
pair of attempts), and returns the failure dictionary carrying the
generic temporarily-unavailable message — in both
`AWSHelper.invoke_bedrock_agent` and `OrchestratorAgent.ask_agent`. -/
theorem c2_retry_exhaustion (beh : Nat → AttemptOutcome) (sid : String) (retries : Nat)
    (hr : 1 ≤ retries) (hbeh : ∀ i, beh i = AttemptOutcome.internalServerError) :
    invoke_bedrock_agent beh sid retries =
      (Except.ok (some { success := false,
                         response := "Sorry, I am temporarily unavailable. Please try again.",
                         error := some "Service temporarily unavailable",
                         session_id := none }), retries, retries - 1)
    ∧ orchestrator_ask_agent beh sid retries =
      (Except.ok (some { success := false,
                         response := "Sorry, I am temporarily unavailable. Please try again later.",
                         error := some "Service temporarily unavailable",
                         session_id := none }), retries, retries - 1) :=
  ⟨agentRetryGo_allISE _ _ beh sid retries hbeh retries 0 (by omega) hr,
   agentRetryGo_allISE _ _ beh sid retries hbeh retries 0 (by omega) hr⟩

/-- C2 (witness): three always-transient attempts give three
invocations, two sleeps and the generic failure dictionary. -/
theorem c2_retry_exhaustion_witness :
    invoke_bedrock_agent (fun _ => AttemptOutcome.internalServerError) "s" 3 =
      (Except.ok (some { success := false,
                         response := "Sorry, I am temporarily unavailable. Please try again.",
                         error := some "Service temporarily unavailable",
                         session_id := none }), 3, 2)
    ∧ orchestrator_ask_agent (fun _ => AttemptOutcome.internalServerError) "s" 3 =
      (Except.ok (some { success := false,
                         response := "Sorry, I am temporarily unavailable. Please try again later.",
                         error := some "Service temporarily unavailable",
                         session_id := none }), 3, 2) :=
  c2_retry_exhaustion (fun _ => AttemptOutcome.internalServerError) "s" 3 (by decide)
    (fun _ => rfl)

/-- C3: a non-retryable (non-`InternalServerException`) error on the
first attempt makes the facade return a failure dictionary immediately:
exactly one invocation, zero sleeps, no further attempts — in both
`AWSHelper.invoke_bedrock_agent` and `OrchestratorAgent.ask_agent`. -/
theorem c3_terminal_short_circuit (beh : Nat → AttemptOutcome) (sid : String)
    (retries : Nat) (e : String) (hr : 1 ≤ retries)
    (h0 : beh 0 = AttemptOutcome.raise e) :
    invoke_bedrock_agent beh sid retries =
      (Except.ok (some { success := false, response := "Error: " ++ e,
                         error := some e, session_id := none }), 1, 0)
    ∧ orchestrator_ask_agent beh sid retries =
      (Except.ok (some { success := false, response := "An error occurred: " ++ e,
                         error := some e, session_id := none }), 1, 0) := by
  obtain ⟨l, rfl⟩ : ∃ l, retries = l + 1 := ⟨retries - 1, by omega⟩
  refine ⟨?_, ?_⟩ <;>
    simp only [invoke_bedrock_agent, orchestrator_ask_agent, agentRetryGo, h0]

/-- C3 (witness): a terminal error on the first of three attempts yields
one invocation and zero sleeps. -/
theorem c3_terminal_short_circuit_witness :
    invoke_bedrock_agent (fun _ => AttemptOutcome.raise "invalid recipient") "s" 3 =
      (Except.ok (some { success := false, response := "Error: " ++ "invalid recipient",
                         error := some "invalid recipient", session_id := none }), 1, 0)
    ∧ orchestrator_ask_agent (fun _ => AttemptOutcome.raise "invalid recipient") "s" 3 =
      (Except.ok (some { success := false,
                         response := "An error occurred: " ++ "invalid recipient",
                         error := some "invalid recipient", session_id := none }), 1, 0) :=
  c3_terminal_short_circuit (fun _ => AttemptOutcome.raise "invalid recipient") "s" 3
    "invalid recipient" (by decide) rfl

/-- C4: if attempts `0, …, j-1` are transient failures and attempt `j`
(zero-based; the claim's 1-based attempt `k` is index `k - 1`) succeeds
with `j < retries`, `AWSHelper.invoke_bedrock_agent` returns a success
dictionary whose payload is the concatenation, in stream order, of the
decoded chunk texts of that attempt's stream, after exactly `j + 1`
invocations and `j` sleeps — no invocation and no sleep follows the
successful attempt. -/
theorem c4_success_short_circuit (beh : Nat → AttemptOutcome) (sid : String)
    (retries j : Nat) (events : List StreamEvent) (hj : j < retries)
    (hpre : ∀ i, i < j → beh i = AttemptOutcome.internalServerError)
    (hk : beh j = AttemptOutcome.ok events) :
    invoke_bedrock_agent beh sid retries =
      (Except.ok (some { success := true, response := collectResponseText events,
                         error := none, session_id := some sid }), j + 1, j)
    ∧ collectResponseText events = concatTexts (events.filterMap chunkText) := by
  constructor
  · simpa using
      agentRetryGo_success "Sorry, I am temporarily unavailable. Please try again."
        "Error: " beh sid retries j events hj hpre hk retries 0 (by omega) (by omega)
  · exact collectResponseText_eq_concat events

/-- C4 (witness): one transient failure, then success on the second
attempt with chunks "Hel", a chunk-less event, and "lo": two
invocations, one sleep, payload "Hello". -/
theorem c4_success_short_circuit_witness :
    invoke_bedrock_agent
        (fun i => if i = 0 then AttemptOutcome.internalServerError
                  else AttemptOutcome.ok [.chunk "Hel", .other, .chunk "lo"]) "s" 3 =
      (Except.ok (some { success := true,
                         response := collectResponseText [.chunk "Hel", .other, .chunk "lo"],
                         error := none, session_id := some "s" }), 2, 1)
    ∧ collectResponseText [.chunk "Hel", .other, .chunk "lo"]
        = concatTexts (List.filterMap chunkText [.chunk "Hel", .other, .chunk "lo"]) :=
  c4_success_short_circuit
    (fun i => if i = 0 then AttemptOutcome.internalServerError
              else AttemptOutcome.ok [.chunk "Hel", .other, .chunk "lo"]) "s" 3 1
    [.chunk "Hel", .other, .chunk "lo"] (by decide)
    (fun i hi => by interval_cases i; rfl) (by decide)

/-- C6 (counterexample): on a terminal error the user-facing `response`
of `AWSHelper.invoke_bedrock_agent` is `"Error: " ++ str(e)`, which
contains the raw error text as a substring — the raw detail is shown to
the end user, not only preserved in the `error` field. -/
theorem c6_raw_error_leak_counterexample :
    invoke_bedrock_agent (fun _ => AttemptOutcome.raise "invalid recipient") "s" 3 =
      (Except.ok (some { success := false, response := "Error: invalid recipient",
                         error := some "invalid recipient", session_id := none }), 1, 0)
    ∧ ∃ pre post,
        pre ++ ("invalid recipient").toList ++ post = ("Error: invalid recipient").toList :=
  ⟨by decide, ⟨("Error: ").toList, [], by decide⟩⟩

/-- C6 (amended): on a terminal error the facade returns a failure
dictionary whose user-facing `response` embeds the raw error text —
`"Error: " ++ str(e)` in `AWSHelper.invoke_bedrock_agent` and
`"An error occurred: " ++ str(e)` in `OrchestratorAgent.ask_agent` —
while the raw text is also kept in the `error` field; only the
exhausted-transient path returns a generic message. -/
theorem c6_terminal_error_response (beh : Nat → AttemptOutcome) (sid : String)
    (retries : Nat) (e : String) (hr : 1 ≤ retries)
    (h0 : beh 0 = AttemptOutcome.raise e) :
    (∃ rest, invoke_bedrock_agent beh sid retries =
      (Except.ok (some { success := false, response := "Error: " ++ e,
                         error := some e, session_id := none }), rest))
    ∧ (∃ rest, orchestrator_ask_agent beh sid retries =
      (Except.ok (some { success := false, response := "An error occurred: " ++ e,
                         error := some e, session_id := none }), rest)) := by
  obtain ⟨h1, h2⟩ := c3_terminal_short_circuit beh sid retries e hr h0
  exact ⟨⟨_, h1⟩, ⟨_, h2⟩⟩

/-- C6 (witness): instance of the amended claim at the error text
`"boom"` with three attempts. -/
theorem c6_terminal_error_response_witness :
    (∃ rest, invoke_bedrock_agent (fun _ => AttemptOutcome.raise "boom") "s" 3 =
      (Except.ok (some { success := false, response := "Error: " ++ "boom",
                         error := some "boom", session_id := none }), rest))
    ∧ (∃ rest, orchestrator_ask_agent (fun _ => AttemptOutcome.raise "boom") "s" 3 =
      (Except.ok (some { success := false, response := "An error occurred: " ++ "boom",
                         error := some "boom", session_id := none }), rest)) :=
  c6_terminal_error_response (fun _ => AttemptOutcome.raise "boom") "s" 3 "boom"
    (by decide) rfl

/-- C8 (counterexample): with `retries = 0` the loop body never runs and
the facades return Python `None` (zero invocations, zero sleeps) —
no configuration error is raised and no failure dictionary is built. -/
theorem c8_zero_retries_counterexample :
    invoke_bedrock_agent (fun _ => AttemptOutcome.internalServerError) "s" 0
      = (Except.ok none, 0, 0)
    ∧ chat_ask_agent (fun _ => AttemptOutcome.internalServerError) 0
      = (Except.ok none, 0, 0) := by
  constructor <;> rfl

/-- C8 (amended): `retries = 0` is not validated anywhere: for every
behaviour, `AWSHelper.invoke_bedrock_agent` and `ask_agent` in
chat_agent.py silently fall through the `for` loop and return `None`
with zero invocations and zero sleeps, rather than failing with a
configuration error. -/
theorem c8_zero_retries_returns_none (beh : Nat → AttemptOutcome) (sid : String) :
    invoke_bedrock_agent beh sid 0 = (Except.ok none, 0, 0)
    ∧ chat_ask_agent beh 0 = (Except.ok none, 0, 0) :=
  ⟨rfl, rfl⟩

/-- Every result dictionary produced by the retry loop of
`invoke_bedrock_agent` / `OrchestratorAgent.ask_agent` satisfies the
`CallResult` invariant: success carries no `error` key, failure carries
one. -/
theorem agentRetryGo_invariant (tm ep : String) (beh : Nat → AttemptOutcome)
    (sid : String) (retries : Nat) :
    ∀ left attempt (r : AgentCallResult) (rest : Nat × Nat),
      agentRetryGo tm ep beh sid retries attempt left = (Except.ok (some r), rest) →
      (r.success = true → r.error = none) ∧ (r.success = false → r.error ≠ none) := by
  intro left
  induction left with
  | zero =>
    intro attempt r rest h
    simp only [agentRetryGo, Prod.mk.injEq] at h
    exact absurd h.1 (by simp)
  | succ l ih =>
    intro attempt r rest h
    cases hb : beh attempt with
    | ok events =>
      simp only [agentRetryGo, hb, Prod.mk.injEq, Except.ok.injEq, Option.some.injEq] at h
      obtain ⟨hr, -⟩ := h
      subst hr
      simp
    | internalServerError =>
      simp only [agentRetryGo, hb] at h
      by_cases hc : attempt < retries - 1
      · rw [if_pos hc] at h
        have h1 : (agentRetryGo tm ep beh sid retries (attempt + 1) l).1
            = Except.ok (some r) := congrArg Prod.fst h
        refine ih (attempt + 1) r (agentRetryGo tm ep beh sid retries (attempt + 1) l).2 ?_
        rw [← h1]
      · rw [if_neg hc] at h
        simp only [Prod.mk.injEq, Except.ok.injEq, Option.some.injEq] at h
        obtain ⟨hr, -⟩ := h
        subst hr
        simp
    | raise e =>
      simp only [agentRetryGo, hb, Prod.mk.injEq, Except.ok.injEq, Option.some.injEq] at h
      obtain ⟨hr, -⟩ := h
      subst hr
      simp

/-- C7 (counterexample): `EmailAutomation._send_email` with automation
disabled returns a result whose success flag is false but which carries
no `error` field (only a `message`), violating the stated invariant. -/
theorem c7_send_email_counterexample :
    send_email false true (SesOutcome.ok "m1")
      = { success := false, message := some "Email automation not enabled",
          message_id := none, error := none }
    ∧ (send_email false true (SesOutcome.ok "m1")).success = false
    ∧ (send_email false true (SesOutcome.ok "m1")).error = none := by
  refine ⟨?_, ?_, ?_⟩ <;> decide

/-- C7 (amended): every result dictionary of
`AWSHelper.invoke_bedrock_agent` satisfies the invariant (success ⇒ no
`error` key; failure ⇒ an `error` key), and so does
`EmailAutomation._send_email` when automation is enabled and the SES
client exists; the disabled path of `_send_email`, however, returns a
failure result carrying only a `message` and no `error` field. -/
theorem c7_call_result_invariant (beh : Nat → AttemptOutcome) (sid : String)
    (retries : Nat) (r : AgentCallResult) (rest : Nat × Nat)
    (h : invoke_bedrock_agent beh sid retries = (Except.ok (some r), rest)) :
    ((r.success = true → r.error = none) ∧ (r.success = false → r.error ≠ none))
    ∧ (∀ out : SesOutcome,
        ((send_email true true out).success = true →
          (send_email true true out).message_id ≠ none
          ∧ (send_email true true out).error = none)
        ∧ ((send_email true true out).success = false →
          (send_email true true out).error ≠ none)) := by
  constructor
  · exact agentRetryGo_invariant _ _ beh sid retries retries 0 r rest h
  · intro out
    cases out <;> simp [send_email]

/-- C7 (witness): instance of the invariant theorem at a terminal-error
run of `invoke_bedrock_agent` with one attempt. -/
theorem c7_call_result_invariant_witness :
    ((({ success := false, response := "Error: x", error := some "x",
         session_id := none } : AgentCallResult).success = true →
        ({ success := false, response := "Error: x", error := some "x",
           session_id := none } : AgentCallResult).error = none)
      ∧ (({ success := false, response := "Error: x", error := some "x",
            session_id := none } : AgentCallResult).success = false →
          ({ success := false, response := "Error: x", error := some "x",
             session_id := none } : AgentCallResult).error ≠ none))
    ∧ (∀ out : SesOutcome,
        ((send_email true true out).success = true →
          (send_email true true out).message_id ≠ none
          ∧ (send_email true true out).error = none)
        ∧ ((send_email true true out).success = false →
          (send_email true true out).error ≠ none)) :=
  c7_call_result_invariant (fun _ => AttemptOutcome.raise "x") "s" 1
    { success := false, response := "Error: x", error := some "x", session_id := none }
    (1, 0) (by decide)

/-- C5 (counterexample): the fallback record returned when the table
handle is `None` is equal, field for field, to a record that the live
store path returns from a real table holding the same item — nothing in
the returned value tags it as synthetic, so a caller cannot distinguish
fallback data from real data. -/
theorem c5_no_synthetic_tag_counterexample :
    get_progress none "u1" 0 = (mock_progress "u1" 0, 0)
    ∧ get_progress (some [("u1", mock_progress "u1" 0)]) "u1" 0 = (mock_progress "u1" 0, 1) := by
  constructor <;> decide

/-- C5 (amended): when the tracking table handle is `None`,
`get_progress` performs zero calls to the underlying store and
immediately returns the mock record with `overall_progress = 45`; the
record carries no marker distinguishing it from real stored data. -/
theorem c5_degradation_fallback (uid : String) (today : Int) :
    get_progress none uid today = (mock_progress uid today, 0)
    ∧ (mock_progress uid today).overall_progress = 45 :=
  ⟨rfl, rfl⟩

/-- C9: `find_optimal_time_slot` returns the head of a non-empty
preferred-slot list (with an empty participant list), returns `None`
for an empty list, and its output does not depend on the
`required_participants` argument — no calendar or availability data is
consulted. -/
theorem c9_first_slot (α : Type) (eid eml nm mt : String) (dur : Nat) (t : α)
    (rest : List α) (ps ps' : List String) :
    find_optimal_time_slot α eid eml nm mt dur (t :: rest) ps
      = some { slot := t, participants := [] }
    ∧ find_optimal_time_slot α eid eml nm mt dur ([] : List α) ps = none
    ∧ find_optimal_time_slot α eid eml nm mt dur (t :: rest) ps
      = find_optimal_time_slot α eid eml nm mt dur (t :: rest) ps' :=
  ⟨rfl, rfl, rfl⟩

/-- C10: `complete_module` is idempotent on already-completed modules:
when the stored record of the user already lists the module in
`completed_modules`, it returns success with the message
`Module already completed`, performs zero `put_item` calls, and leaves
the table unchanged. -/
theorem c10_complete_module_idempotent (t : ProgressTable) (uid m : String)
    (r0 : ProgressRecord) (ts : Nat) (today : Int)
    (hlook : t.lookup uid = some r0) (hmem : m ∈ r0.completed_modules) :
    complete_module (some t) uid m ts today
      = ({ success := true, message := some "Module already completed" }, some t, 0) := by
  simp only [complete_module, get_progress, hlook]
  rw [if_pos hmem]

/-- C10 (witness): completing the already-completed module
`Company Culture` on a stored mock record returns the
already-completed message with zero writes and an unchanged table. -/
theorem c10_complete_module_idempotent_witness :
    complete_module (some [("u1", mock_progress "u1" 3)]) "u1" "Company Culture" 30 5
      = ({ success := true, message := some "Module already completed" },
         some [("u1", mock_progress "u1" 3)], 0) :=
  c10_complete_module_idempotent [("u1", mock_progress "u1" 3)] "u1" "Company Culture"
    (mock_progress "u1" 3) 30 5 (by decide) (by decide)
